import Mathlib

/-!
Verification of the ZenVibe repository: the AI gateway
(`src/services/geminiService.ts`) and the navigation shell
(`src/components/Navigation.tsx`).

The gateway operations are embedded as total Lean functions over an explicit
gateway state (the module-level `ai : GoogleGenAI | null` handle) and an
explicit outcome of the single external `generateContent` call
(`Except ApiFailure String`: either the awaited `response.text` or a thrown
error).  Each operation returns its result paired with the list of network
requests it issued, so that "zero network calls" and the exact request
contents are statable.

JavaScript runtime values produced by `JSON.parse` are modelled by the
`Json` inductive; numeric literals are kept as their source lexeme since no
claim depends on numeric arithmetic.  The JavaScript string operations used
by the source (`trim`, `startsWith`, `endsWith`, `substring`,
`Number.prototype.toFixed`) are embedded over `List Char` following the
ECMAScript semantics, so that every definition evaluates inside the kernel.
-/

namespace ZenVibe

/-- Runtime JSON values, as produced by `JSON.parse`.  A number is kept as
its source lexeme (no claim depends on numeric arithmetic). -/
inductive Json where
  | null
  | bool (b : Bool)
  | num (raw : String)
  | str (s : String)
  | arr (elems : List Json)
  | obj (fields : List (String × Json))

/-- JSON insignificant whitespace (ECMA-404): space, tab, line feed,
carriage return. -/
def isJsonWs (c : Char) : Bool :=
  c = ' ' || c = '\t' || c = '\n' || c = '\r'

def skipJsonWs : List Char → List Char
  | [] => []
  | c :: cs => if isJsonWs c then skipJsonWs cs else c :: cs

def hexVal? (c : Char) : Option Nat :=
  if '0' ≤ c ∧ c ≤ '9' then some (c.toNat - '0'.toNat)
  else if 'a' ≤ c ∧ c ≤ 'f' then some (c.toNat - 'a'.toNat + 10)
  else if 'A' ≤ c ∧ c ≤ 'F' then some (c.toNat - 'A'.toNat + 10)
  else none

/-- Body of a JSON string, after the opening quote: handles the escape
sequences of ECMA-404 and rejects unescaped control characters.  (`\u`
escapes that denote surrogate halves are approximated by `Char.ofNat`,
which no claim exercises.) -/
def parseStringRest : Nat → List Char → List Char → Option (String × List Char)
  | 0, _, _ => none
  | _ + 1, [], _ => none
  | fuel + 1, c :: cs, acc =>
    if c = '"' then some (String.mk acc.reverse, cs)
    else if c = '\\' then
      match cs with
      | [] => none
      | e :: cs' =>
        if e = '"' then parseStringRest fuel cs' ('"' :: acc)
        else if e = '\\' then parseStringRest fuel cs' ('\\' :: acc)
        else if e = '/' then parseStringRest fuel cs' ('/' :: acc)
        else if e = 'b' then parseStringRest fuel cs' ('\x08' :: acc)
        else if e = 'f' then parseStringRest fuel cs' ('\x0C' :: acc)
        else if e = 'n' then parseStringRest fuel cs' ('\n' :: acc)
        else if e = 'r' then parseStringRest fuel cs' ('\r' :: acc)
        else if e = 't' then parseStringRest fuel cs' ('\t' :: acc)
        else if e = 'u' then
          match cs' with
          | h1 :: h2 :: h3 :: h4 :: cs'' =>
            match hexVal? h1, hexVal? h2, hexVal? h3, hexVal? h4 with
            | some a, some b, some c2, some d =>
              parseStringRest fuel cs'' (Char.ofNat (((a * 16 + b) * 16 + c2) * 16 + d) :: acc)
            | _, _, _, _ => none
          | _ => none
        else none
    else if c.toNat < 0x20 then none
    else parseStringRest fuel cs (c :: acc)

def takeDigits : List Char → List Char × List Char
  | [] => ([], [])
  | c :: cs =>
    if c.isDigit then
      let (ds, rest) := takeDigits cs
      (c :: ds, rest)
    else ([], c :: cs)

def parseExpPart (acc : List Char) (cs : List Char) : Option (List Char × List Char) :=
  match cs with
  | e :: rest =>
    if e = 'e' ∨ e = 'E' then
      let (sgn, rest1) :=
        match rest with
        | '+' :: r => (['+'], r)
        | '-' :: r => (['-'], r)
        | _ => (([] : List Char), rest)
      match takeDigits rest1 with
      | ([], _) => none
      | (ds, rest2) => some (acc ++ [e] ++ sgn ++ ds, rest2)
    else some (acc, cs)
  | [] => some (acc, [])

def parseFracPart (acc : List Char) (cs : List Char) : Option (List Char × List Char) :=
  match cs with
  | '.' :: rest =>
    match takeDigits rest with
    | ([], _) => none
    | (ds, rest2) => parseExpPart (acc ++ ['.'] ++ ds) rest2
  | _ => parseExpPart acc cs

/-- Lexes a JSON number (ECMA-404: optional minus, `0` or a nonzero-led
digit run, optional fraction, optional exponent) and returns its lexeme. -/
def parseNumberLex (cs : List Char) : Option (List Char × List Char) :=
  match cs with
  | '-' :: rest =>
    match rest with
    | '0' :: r2 => parseFracPart ['-', '0'] r2
    | c :: _ =>
      if c.isDigit then
        let (ds, r2) := takeDigits rest
        parseFracPart ('-' :: ds) r2
      else none
    | [] => none
  | '0' :: r2 => parseFracPart ['0'] r2
  | c :: _ =>
    if c.isDigit then
      let (ds, r2) := takeDigits cs
      parseFracPart ds r2
    else none
  | [] => none

mutual

def parseVal : Nat → List Char → Option (Json × List Char)
  | 0, _ => none
  | fuel + 1, cs =>
    match skipJsonWs cs with
    | [] => none
    | c :: rest =>
      if c = '{' then parseMembersStart fuel rest
      else if c = '[' then parseElemsStart fuel rest
      else if c = '"' then
        match parseStringRest (rest.length + 1) rest [] with
        | some (s, r) => some (.str s, r)
        | none => none
      else if c = 't' then
        match rest with
        | 'r' :: 'u' :: 'e' :: r => some (.bool true, r)
        | _ => none
      else if c = 'f' then
        match rest with
        | 'a' :: 'l' :: 's' :: 'e' :: r => some (.bool false, r)
        | _ => none
      else if c = 'n' then
        match rest with
        | 'u' :: 'l' :: 'l' :: r => some (.null, r)
        | _ => none
      else
        match parseNumberLex (c :: rest) with
        | some (lex, r) => some (.num (String.mk lex), r)
        | none => none

def parseMembersStart : Nat → List Char → Option (Json × List Char)
  | 0, _ => none
  | fuel + 1, cs =>
    match skipJsonWs cs with
    | '}' :: r => some (.obj [], r)
    | cs' => parseMembers fuel cs' []

def parseMembers : Nat → List Char → List (String × Json) → Option (Json × List Char)
  | 0, _, _ => none
  | fuel + 1, cs, acc =>
    match skipJsonWs cs with
    | '"' :: rest =>
      match parseStringRest (rest.length + 1) rest [] with
      | some (key, r1) =>
        match skipJsonWs r1 with
        | ':' :: r2 =>
          match parseVal fuel r2 with
          | some (v, r3) =>
            match skipJsonWs r3 with
            | ',' :: r4 => parseMembers fuel r4 (acc ++ [(key, v)])
            | '}' :: r4 => some (.obj (acc ++ [(key, v)]), r4)
            | _ => none
          | none => none
        | _ => none
      | none => none
    | _ => none

def parseElemsStart : Nat → List Char → Option (Json × List Char)
  | 0, _ => none
  | fuel + 1, cs =>
    match skipJsonWs cs with
    | ']' :: r => some (.arr [], r)
    | cs' => parseElems fuel cs' []

def parseElems : Nat → List Char → List Json → Option (Json × List Char)
  | 0, _, _ => none
  | fuel + 1, cs, acc =>
    match parseVal fuel cs with
    | some (v, r1) =>
      match skipJsonWs r1 with
      | ',' :: r2 => parseElems fuel r2 (acc ++ [v])
      | ']' :: r2 => some (.arr (acc ++ [v]), r2)
      | _ => none
    | none => none

end

/-- `JSON.parse`: parses one JSON value and requires the whole input
(up to trailing whitespace) to be consumed; `none` models a thrown
`SyntaxError`.  The fuel bound dominates the recursion depth, which grows
by at most a constant per consumed character. -/
def jsonParse (s : String) : Option Json :=
  let cs := s.data
  match parseVal (4 * cs.length + 8) cs with
  | some (j, rest) =>
    match skipJsonWs rest with
    | [] => some j
    | _ => none
  | none => none

/-- Field access on a parsed object: the last binding of a key wins, as in
a JavaScript object literal built left to right. -/
def jsonLookup (j : Json) (key : String) : Option Json :=
  match j with
  | .obj fields => ((fields.filter (fun p => p.fst = key)).map Prod.snd).getLast?
  | _ => none

/-! ### The moderation response schema (source constant `moderationSchema`) -/

inductive SchemaType where
  | object
  | boolean
  | string
deriving DecidableEq

structure SchemaProp where
  name : String
  type : SchemaType
  description : String

structure Schema where
  type : SchemaType
  properties : List SchemaProp
  required : List String

def moderationSchema : Schema :=
  { type := .object
    properties := [
      { name := "isPositive", type := .boolean,
        description := "True if the content is positive, supportive, and safe for a teen audience. False otherwise." },
      { name := "reason", type := .string,
        description := "If not positive, provide a brief, gentle, non-judgmental explanation for why the content is not suitable. If positive, provide a short affirmation." },
      { name := "isSevere", type := .boolean,
        description := "True ONLY if the content explicitly discusses immediate plans, methods, or strong intent for self-harm or harming others. False for general sadness or non-threatening negativity." } ]
    required := ["isPositive", "reason", "isSevere"] }

def schemaTypeMatches : SchemaType → Json → Bool
  | .object, .obj _ => true
  | .boolean, .bool _ => true
  | .string, .str _ => true
  | _, _ => false

/-- Modelled from the spec: conformance of a parsed payload to the required
fields and declared types of a response schema — the spec's "fully
populated `ModerationResult`" (data model) and "schema violation" (error
taxonomy).  The repository performs no such runtime check; this definition
exists only to state those claims against the source behavior. -/
def jsonConformsSchema (sch : Schema) (j : Json) : Bool :=
  schemaTypeMatches sch.type j &&
  sch.required.all (fun fieldName =>
    match sch.properties.find? (fun p => p.name == fieldName) with
    | some p =>
      match jsonLookup j fieldName with
      | some v => schemaTypeMatches p.type v
      | none => false
    | none => false)

/-! ### JavaScript string and number operations used by the source -/

/-- Whitespace recognized by `String.prototype.trim` (the ASCII and
Latin-1 WhiteSpace and LineTerminator code points suffice here). -/
def isJsWs (c : Char) : Bool :=
  c = ' ' || c = '\t' || c = '\n' || c = '\r' || c = '\x0b' || c = '\x0c' ||
  c = '\u00A0' || c = '\uFEFF'

def jsTrim (s : String) : String :=
  String.mk (((s.data.dropWhile isJsWs).reverse.dropWhile isJsWs).reverse)

def jsStartsWith (s searchString : String) : Bool :=
  List.isPrefixOf searchString.data s.data

def jsEndsWith (s searchString : String) : Bool :=
  List.isSuffixOf searchString.data s.data

def jsLength (s : String) : Nat :=
  s.data.length

/-- `String.prototype.substring`: clamps both indices to `[0, length]`,
swaps them when out of order, and returns the characters in between. -/
def jsSubstring (s : String) (intStart intEnd : Int) : String :=
  let len : Int := jsLength s
  let f1 := max 0 (min intStart len)
  let f2 := max 0 (min intEnd len)
  let lo := (min f1 f2).toNat
  let hi := (max f1 f2).toNat
  String.mk ((s.data.drop lo).take (hi - lo))

/-- `Number.prototype.toFixed(1)`: a minus sign for a negative value, then
the magnitude rounded to the nearest tenth, ties toward the larger digit
(ECMAScript Number.prototype.toFixed, with the numeric value taken exactly
as a rational rather than as a binary double; the two readings agree at
every score the claims use). -/
def toFixed1 (x : ℚ) : String :=
  let sign := if x.num < 0 then "-" else ""
  let a := x.num.natAbs
  let n := (20 * a + x.den) / (2 * x.den)
  sign ++ toString (n / 10) ++ "." ++ toString (n % 10)

/-! ### The AI gateway (`src/services/geminiService.ts`) -/

/-- The external client; the module-level gateway state is
`Option GoogleGenAI`, with `none` the Unavailable state (missing
`API_KEY`, or construction failure caught at initialization). -/
structure GoogleGenAI where
  apiKey : String

/-- A thrown failure of the external call (network error, API error, or a
rejected response), caught by each operation's `try`/`catch`. -/
structure ApiFailure where
  message : String

/-- One request to `ai.models.generateContent`, as constructed by the
source: a model id, the prompt contents, and the config fields used. -/
structure GenRequest where
  model : String
  contents : String
  systemInstruction : Option String
  responseMimeType : Option String
  responseSchema : Option Schema

def modSystemInstruction : String :=
  "You are a content moderator for a teen mental health support app called ZenVibe. Your primary goal is to ensure all content is positive, supportive, and safe. The content must not contain bullying, hate speech, self-harm encouragement, explicit negativity, dismissive language, or anything unsafe for teens. Crucially, you must identify content that suggests an immediate risk. If a user explicitly mentions plans, methods, or a strong, immediate intent to harm themselves or someone else, you MUST set isSevere to true. Vague expressions of sadness or frustration are not severe. Your response must conform to the provided JSON schema."

def modContents (content : String) : String :=
  "Analyze the following text: \"" ++ content ++ "\""

def modRequest (content : String) : GenRequest :=
  { model := "gemini-2.5-flash"
    contents := modContents content
    systemInstruction := some modSystemInstruction
    responseMimeType := some "application/json"
    responseSchema := some moderationSchema }

def modUnavailableFallback : Json :=
  Json.obj [("isPositive", Json.bool false),
            ("reason", Json.str "Moderation service is currently unavailable."),
            ("isSevere", Json.bool false)]

def modFailureFallback : Json :=
  Json.obj [("isPositive", Json.bool false),
            ("reason", Json.str "Could not check your message at this time. Please try again later."),
            ("isSevere", Json.bool false)]

/-- `moderateContent`: unavailable guard, one request, `response.text.trim()`
then `JSON.parse`, all failures caught and mapped to the fixed fallback.
Returns the runtime value handed to the caller (the TypeScript
`ModerationResult` annotation on the parse result is an unchecked cast)
paired with the list of network requests issued. -/
def moderateContentRun (ai : Option GoogleGenAI) (content : String)
    (api : Except ApiFailure String) : Json × List GenRequest :=
  match ai with
  | none => (modUnavailableFallback, [])
  | some _ =>
    match api with
    | .error _ => (modFailureFallback, [modRequest content])
    | .ok text =>
      let jsonString := jsTrim text
      match jsonParse jsonString with
      | some result => (result, [modRequest content])
      | none => (modFailureFallback, [modRequest content])

def replySystemInstruction : String :=
  "You are a supportive teen on the ZenVibe app. Your tone is like a peer: warm, caring, and positive, but not overly formal or robotic. Use emojis naturally."

def replyContents (postContent : String) : String :=
  "A teen posted this on a peer support app: \"" ++ postContent ++ "\". Write a short (2-3 sentences), empathetic, and supportive reply. The reply should validate their feelings and offer encouragement. Do not give advice."

def replyRequest (postContent : String) : GenRequest :=
  { model := "gemini-2.5-flash"
    contents := replyContents postContent
    systemInstruction := some replySystemInstruction
    responseMimeType := none
    responseSchema := none }

def replyFallback : String :=
  "Thanks for sharing. It takes courage to open up, and you\u0027re not alone in feeling this way."

/-- Post-processing shared by both generation operations: trim, then strip
the wrapping quotes via `substring(1, length - 1)` when the first and the
last character are both a double quote. -/
def cleanReply (raw : String) : String :=
  let r := jsTrim raw
  if jsStartsWith r "\"" && jsEndsWith r "\"" then
    jsSubstring r 1 ((jsLength r : Int) - 1)
  else r

def generateSupportiveReplyRun (ai : Option GoogleGenAI) (postContent : String)
    (api : Except ApiFailure String) : String × List GenRequest :=
  match ai with
  | none => (replyFallback, [])
  | some _ =>
    match api with
    | .error _ => (replyFallback, [replyRequest postContent])
    | .ok text => (cleanReply text, [replyRequest postContent])

def quizSystemInstruction : String :=
  "You are Aura, an AI friend on the ZenVibe app. Your tone is warm, caring, and positive. You do not give advice."

def quizContentsHead : String :=
  "A teen in a mental wellness app just scored "

def quizContentsTail : String :=
  " out of 10 on their initial stress level quiz. A higher score indicates higher stress. Write a short, encouraging, and non-clinical message (1-2 sentences) for them. The tone should be warm, supportive, and empathetic, like an AI friend named Aura. If the score is high (above 7), be extra gentle and focus on acknowledging their struggle. If it\u0027s mid-range (4-7), be encouraging about the journey. If it\u0027s low (under 4), be celebratory and positive about their low stress level."

def quizContents (score : ℚ) : String :=
  quizContentsHead ++ toFixed1 score ++ quizContentsTail

def quizRequest (score : ℚ) : GenRequest :=
  { model := "gemini-2.5-flash"
    contents := quizContents score
    systemInstruction := some quizSystemInstruction
    responseMimeType := none
    responseSchema := none }

def quizFallback : String :=
  "Thank you for sharing how you feel. Remember that every step, big or small, is part of your journey."

def getQuizFeedbackRun (ai : Option GoogleGenAI) (score : ℚ)
    (api : Except ApiFailure String) : String × List GenRequest :=
  match ai with
  | none => (quizFallback, [])
  | some _ =>
    match api with
    | .error _ => (quizFallback, [quizRequest score])
    | .ok text => (cleanReply text, [quizRequest score])

/-! ### The navigation shell (`src/components/Navigation.tsx`) -/

/-- Modelled from the spec: the `Tab` union type lives in `../types`, which
is not among the sources; the spec fixes it as the closed set discussion,
chatbot, resources, help.  The string ids of `navItems` are cast to `Tab`
by the source (`id as Tab`), an identity on these four literals. -/
inductive Tab where
  | discussion
  | chatbot
  | resources
  | help
deriving DecidableEq

structure NavItem where
  id : Tab
  label : String
  icon : String

def navItems : List NavItem :=
  [ { id := .discussion, label := "Discuss", icon := "ChatBubbleIcon" },
    { id := .chatbot, label := "Friend Chat", icon := "SparklesIcon" },
    { id := .resources, label := "Resources", icon := "BookOpenIcon" },
    { id := .help, label := "Help", icon := "LifeBuoyIcon" } ]

/-- One rendered tab button: the `Tab` its click handler passes to the
caller-supplied `setActiveTab`, its label and icon, and whether it carries
the active (highlight) styling. -/
structure RenderedNavButton where
  payload : Tab
  label : String
  icon : String
  highlighted : Bool

/-- The component body, a pure function of the `activeTab` prop: the
source component declares no internal state at all. -/
def renderNavigation (activeTab : Tab) : List RenderedNavButton :=
  navItems.map (fun it =>
    { payload := it.id, label := it.label, icon := it.icon,
      highlighted := decide (activeTab = it.id) })

/-- Clicking the `i`-th rendered button: the list of invocations of the
caller-supplied callback performed by its click handler (an index outside
the rendered list performs none). -/
def clickNav (activeTab : Tab) (i : Nat) : List Tab :=
  match (renderNavigation activeTab).get? i with
  | some b => [b.payload]
  | none => []

/-! ### Theorems -/

/-- Claim C1, counterexample: `moderateContent` can hand the caller a value
that is not of its declared result type.  The payload `"5"` is valid JSON,
so `JSON.parse` succeeds and the bare number is returned unvalidated: it
does not conform to the `ModerationResult` schema. -/
theorem moderateContent_nonconforming_return :
    (moderateContentRun (some ⟨"key"⟩) "hello" (.ok "5")).1 = Json.num "5" ∧
    jsonConformsSchema moderationSchema (Json.num "5") = false := by
  exact ⟨rfl, rfl⟩

/-- Claim C1 as amended: every public gateway operation is total and never
propagates an exception across the gateway boundary — a thrown external
call is caught and mapped to the operation's fixed fallback, a parse
failure likewise, and the generation operations always return strings; but
the value `moderateContent` returns on a successful call is the parsed
payload itself, which need not conform to `ModerationResult`. -/
theorem gateway_total_no_exception :
    ∀ (g : GoogleGenAI) (c p : String) (s : ℚ) (e : ApiFailure) (t : String),
    (moderateContentRun none c (.error e)).1 = modUnavailableFallback ∧
    (moderateContentRun (some g) c (.error e)).1 = modFailureFallback ∧
    (generateSupportiveReplyRun none p (.error e)).1 = replyFallback ∧
    (generateSupportiveReplyRun (some g) p (.error e)).1 = replyFallback ∧
    (getQuizFeedbackRun none s (.error e)).1 = quizFallback ∧
    (getQuizFeedbackRun (some g) s (.error e)).1 = quizFallback ∧
    (moderateContentRun (some g) c (.ok t)).1
      = (jsonParse (jsTrim t)).getD modFailureFallback ∧
    (generateSupportiveReplyRun (some g) p (.ok t)).1 = cleanReply t ∧
    (getQuizFeedbackRun (some g) s (.ok t)).1 = cleanReply t := by
  intro g c p s e t
  refine ⟨rfl, rfl, rfl, rfl, rfl, rfl, ?_, rfl, rfl⟩
  cases h : jsonParse (jsTrim t) <;> simp [moderateContentRun, h]

/-- Claim C2 (confirmed): in the Unavailable state every operation returns
its exact fixed fallback value with zero network calls, for any input. -/
theorem unavailable_fixed_fallbacks_no_network :
    ∀ (c p : String) (s : ℚ) (api : Except ApiFailure String),
    moderateContentRun none c api = (modUnavailableFallback, []) ∧
    generateSupportiveReplyRun none p api = (replyFallback, []) ∧
    getQuizFeedbackRun none s api = (quizFallback, []) ∧
    modUnavailableFallback
      = Json.obj [("isPositive", Json.bool false),
                  ("reason", Json.str "Moderation service is currently unavailable."),
                  ("isSevere", Json.bool false)] ∧
    replyFallback
      = "Thanks for sharing. It takes courage to open up, and you're not alone in feeling this way." ∧
    quizFallback
      = "Thank you for sharing how you feel. Remember that every step, big or small, is part of your journey." := by
  intro c p s api
  exact ⟨rfl, rfl, rfl, rfl, rfl, rfl⟩

/-- Claim C3 (confirmed): both fallback paths of `moderateContent` —
unavailability and any caught failure (a thrown call, or an unparseable
payload) — produce a result whose `isSevere` field is `false`, and the
caught-failure path returns exactly the fixed failure fallback. -/
theorem moderation_fallback_never_severe :
    ∀ (g : GoogleGenAI) (c : String) (e : ApiFailure) (api : Except ApiFailure String),
    (moderateContentRun none c api).1 = modUnavailableFallback ∧
    moderateContentRun (some g) c (.error e) = (modFailureFallback, [modRequest c]) ∧
    (moderateContentRun (some g) c (.ok "not json")).1 = modFailureFallback ∧
    jsonLookup modUnavailableFallback "isSevere" = some (Json.bool false) ∧
    jsonLookup modFailureFallback "isSevere" = some (Json.bool false) ∧
    modFailureFallback
      = Json.obj [("isPositive", Json.bool false),
                  ("reason", Json.str "Could not check your message at this time. Please try again later."),
                  ("isSevere", Json.bool false)] := by
  intro g c e api
  exact ⟨rfl, rfl, rfl, rfl, rfl, rfl⟩

/-- Claim C4, counterexample: a successfully parsed payload that violates
the schema is returned to the caller as-is, not mapped to the failure
fallback.  On the payload text consisting of an empty object, the caller
receives that empty object, which conforms to none of the required fields,
while the failure fallback does conform (so the two values differ). -/
theorem moderation_schema_violation_returned :
    (moderateContentRun (some ⟨"key"⟩) "hello" (.ok "\x7b\x7d")).1 = Json.obj [] ∧
    jsonConformsSchema moderationSchema (Json.obj []) = false ∧
    jsonLookup (Json.obj []) "isPositive" = none ∧
    jsonConformsSchema moderationSchema modFailureFallback = true := by
  exact ⟨rfl, rfl, rfl, rfl⟩

/-- Claim C4 as amended: a payload whose text is not parseable JSON is
mapped to the fixed failure fallback, but a successfully parsed JSON value
is returned to the caller without any field or type validation, so a
payload missing required fields or with wrong-typed fields is not mapped
to the fallback.  The fixed fallbacks themselves are fully populated
`ModerationResult`s, and a well-formed payload is returned intact. -/
theorem moderation_parse_behavior :
    ∀ (g : GoogleGenAI) (c t : String),
    (moderateContentRun (some g) c (.ok t)).1
      = (jsonParse (jsTrim t)).getD modFailureFallback ∧
    (moderateContentRun (some g) c (.ok "not json")).1 = modFailureFallback ∧
    (moderateContentRun (some g) c
        (.ok " \x7b\"isPositive\": true, \"reason\": \"ok\", \"isSevere\": false\x7d ")).1
      = Json.obj [("isPositive", Json.bool true), ("reason", Json.str "ok"),
                  ("isSevere", Json.bool false)] ∧
    jsonConformsSchema moderationSchema
      (Json.obj [("isPositive", Json.bool true), ("reason", Json.str "ok"),
                 ("isSevere", Json.bool false)]) = true ∧
    jsonConformsSchema moderationSchema modFailureFallback = true ∧
    jsonConformsSchema moderationSchema modUnavailableFallback = true := by
  intro g c t
  refine ⟨?_, rfl, rfl, rfl, rfl, rfl⟩
  cases h : jsonParse (jsTrim t) <;> simp [moderateContentRun, h]

/-- Claim C5, counterexample: `getQuizFeedback` cannot route the boundary
scores to different prompt variants, because the request depends on the
score only through `toFixed(1)`: the scores 7.01 and 7.0 produce identical
requests (both render as "7.0"), as do 3.99 and 4.0 (both render "4.0"),
so no band routing distinguishing them exists in the code. -/
theorem quiz_boundary_scores_identical_request :
    getQuizFeedbackRun (some ⟨"key"⟩) (mkRat 701 100) (.ok "ok")
      = getQuizFeedbackRun (some ⟨"key"⟩) 7 (.ok "ok") ∧
    getQuizFeedbackRun (some ⟨"key"⟩) (mkRat 399 100) (.ok "ok")
      = getQuizFeedbackRun (some ⟨"key"⟩) 4 (.ok "ok") ∧
    toFixed1 (mkRat 701 100) = "7.0" ∧
    toFixed1 (mkRat 399 100) = "4.0" := by
  exact ⟨rfl, rfl, rfl, rfl⟩

/-- Claim C5 as amended: `getQuizFeedback` issues a single prompt for every
score, embedding only the score rendered to one decimal place; the three
band instructions are part of that one fixed prompt text and band
selection is delegated to the model, so any two scores with the same
one-decimal rendering produce identical requests. -/
theorem quiz_single_prompt_routing :
    ∀ (g : GoogleGenAI) (s t : ℚ) (api : Except ApiFailure String),
    (getQuizFeedbackRun (some g) s api).2 = [quizRequest s] ∧
    (quizRequest s).contents = quizContentsHead ++ toFixed1 s ++ quizContentsTail ∧
    (toFixed1 s = toFixed1 t → quizRequest s = quizRequest t) := by
  intro g s t api
  refine ⟨?_, rfl, ?_⟩
  · cases api <;> rfl
  · intro h
    simp [quizRequest, quizContents, h]

/-- Witness for `quiz_single_prompt_routing` at the boundary pair 7.01 and
7.0, whose renderings coincide. -/
theorem quiz_single_prompt_routing_witness :
    quizRequest (mkRat 701 100) = quizRequest 7 :=
  (quiz_single_prompt_routing ⟨"key"⟩ (mkRat 701 100) 7 (Except.ok "x")).2.2 rfl

/-- Claim C6 (confirmed): on a successful call both generation operations
return the response text trimmed, with at most one wrapping pair of double
quotes stripped and only when the first and last character are quotes: an
unquoted text is unchanged after trimming, and for a quoted text only the
outermost pair is removed, inner quotes preserved. -/
theorem generation_quote_stripping :
    ∀ (g : GoogleGenAI) (p : String) (s : ℚ) (t : String),
    (generateSupportiveReplyRun (some g) p (.ok t)).1 = cleanReply t ∧
    (getQuizFeedbackRun (some g) s (.ok t)).1 = cleanReply t ∧
    cleanReply "\"hello\"" = "hello" ∧
    cleanReply "hello" = "hello" ∧
    cleanReply "  hello  " = "hello" ∧
    cleanReply "\"nested \"quote\"\"" = "nested \"quote\"" ∧
    cleanReply "\"\"wrapped\"\"" = "\"wrapped\"" := by
  intro g p s t
  exact ⟨rfl, rfl, rfl, rfl, rfl, rfl, rfl⟩

/-- Claim C7 (confirmed): for every active tab, each of the four rendered
tab items dispatches, on click, exactly one callback invocation carrying
that item's tab identifier; in particular clicking `resources` while
`chatbot` is active invokes the callback exactly once with `resources`.
The component owns no state for a click to mutate: rendering is a pure
function of the `activeTab` prop. -/
theorem navigation_click_dispatch :
    ∀ active : Tab,
    (renderNavigation active).length = 4 ∧
    clickNav active 0 = [Tab.discussion] ∧
    clickNav active 1 = [Tab.chatbot] ∧
    clickNav active 2 = [Tab.resources] ∧
    clickNav active 3 = [Tab.help] ∧
    clickNav Tab.chatbot 2 = [Tab.resources] := by
  intro active
  cases active <;> exact ⟨rfl, rfl, rfl, rfl, rfl, rfl⟩

/-- Claim C8 (confirmed): `getQuizFeedback` performs no range check on the
score: an out-of-range score follows exactly the same path as an in-range
one — rendered to one decimal place, embedded in the single prompt, and
answered with a string — as the concrete scores -1 and 11.5 show. -/
theorem quiz_score_no_range_check :
    ∀ (g : GoogleGenAI) (s : ℚ) (t : String),
    getQuizFeedbackRun (some g) s (.ok t) = (cleanReply t, [quizRequest s]) ∧
    (quizRequest s).contents = quizContentsHead ++ toFixed1 s ++ quizContentsTail ∧
    toFixed1 (-1) = "-1.0" ∧
    toFixed1 (mkRat 23 2) = "11.5" ∧
    getQuizFeedbackRun (some g) (-1) (.ok t) = (cleanReply t, [quizRequest (-1)]) ∧
    getQuizFeedbackRun (some g) (mkRat 23 2) (.ok t)
      = (cleanReply t, [quizRequest (mkRat 23 2)]) := by
  intro g s t
  exact ⟨rfl, rfl, rfl, rfl, rfl, rfl⟩

/-- Claim C9 (confirmed): on the successful response whose text is exactly
one opening and one closing double quote, both generation operations
return the empty string, so an empty reply can reach the caller. -/
theorem generation_empty_reply :
    generateSupportiveReplyRun (some ⟨"key"⟩) "post" (.ok "\"\"")
      = ("", [replyRequest "post"]) ∧
    getQuizFeedbackRun (some ⟨"key"⟩) 5 (.ok "\"\"") = ("", [quizRequest 5]) ∧
    cleanReply "\"\"" = "" := by
  exact ⟨rfl, rfl, rfl⟩

/-- Claim C10 (confirmed): the identifier a click dispatches is independent
of the `activeTab` prop — for any two values of the prop, clicking the
same rendered item invokes the callback with the same identifier, and the
payloads and labels of the rendered list coincide; only the highlight
styling varies with the prop. -/
theorem navigation_payload_independent_of_active :
    ∀ (a b : Tab) (i : Nat),
    clickNav a i = clickNav b i ∧
    (renderNavigation a).map RenderedNavButton.payload
      = (renderNavigation b).map RenderedNavButton.payload ∧
    (renderNavigation a).map RenderedNavButton.label
      = (renderNavigation b).map RenderedNavButton.label := by
  intro a b i
  refine ⟨?_, ?_, ?_⟩
  · rcases i with _ | _ | _ | _ | i <;> cases a <;> cases b <;> rfl
  · cases a <;> cases b <;> rfl
  · cases a <;> cases b <;> rfl

end ZenVibe
